import Mathlib

/-!
Verification of the half-life validator-monitoring configuration layer
(`cmd/config.go`) against its natural-language specification.

The Go code is shallowly embedded: Go structs become Lean structures,
`*T` pointer fields become `Option T`, `int64`/`int` become `Int`
(no arithmetic that could overflow occurs in the embedded code),
`float64` threshold fields become `Rat` (the only operations the code
performs on them are comparison with zero and assignment of the literal
defaults, both exact), and Go slices become Lean lists. A Go method that
mutates its receiver becomes a function returning the new value; a Go
function that can panic returns an `Option`.
-/

namespace HalfLife

/-! ## Constants (config.go lines 13-23) -/

def defaultSlashingPeriodUptimeWarningThreshold : Rat := 99.80

def defaultSlashingPeriodUptimeErrorThreshold : Rat := 98

def defaultRecentBlocksToCheck : Int := 20

def defaultNotifyEvery : Int := 20

def defaultRecentMissedBlocksNotifyThreshold : Int := 10

def sentryGRPCErrorNotifyThreshold : Int := 1

def sentryOutOfSyncErrorNotifyThreshold : Int := 1

def sentryHaltErrorNotifyThreshold : Int := 1

/-! ## AlertLevel (config.go lines 25-32)

`type AlertLevel int8` with `iota` constants; the four declared values are
0, 1, 2, 3 (far below the int8 range, so `Int` is a faithful carrier). -/

abbrev AlertLevel := Int

def alertLevelNone : AlertLevel := 0

def alertLevelWarning : AlertLevel := 1

def alertLevelHigh : AlertLevel := 2

def alertLevelCritical : AlertLevel := 3

/-- A value of the `AlertLevel` carrier that is one of the four declared
enumeration constants. -/
def DeclaredAlertLevel (x : AlertLevel) : Prop :=
  x = alertLevelNone ∨ x = alertLevelWarning ∨ x = alertLevelHigh ∨ x = alertLevelCritical

/-! ## AlertType (config.go lines 34-56)

`type AlertType string`; the eight declared constants and the `alertTypes`
slice used by the membership scan in `UnmarshalYAML`. -/

abbrev AlertType := String

def alertTypeJailed : AlertType := "alertTypeJailed"

def alertTypeTombstoned : AlertType := "alertTypeTombstoned"

def alertTypeOutOfSync : AlertType := "alertTypeOutOfSync"

def alertTypeBlockFetch : AlertType := "alertTypeBlockFetch"

def alertTypeMissedRecentBlocks : AlertType := "alertTypeMissedRecentBlocks"

def alertTypeGenericRPC : AlertType := "alertTypeGenericRPC"

def alertTypeHalt : AlertType := "alertTypeHalt"

def alertTypeSlashingSLA : AlertType := "alertTypeSlashingSLA"

def alertTypes : List AlertType :=
  [alertTypeJailed, alertTypeTombstoned, alertTypeOutOfSync, alertTypeBlockFetch,
   alertTypeMissedRecentBlocks, alertTypeGenericRPC, alertTypeHalt, alertTypeSlashingSLA]

/-! ## AlertType.UnmarshalYAML (config.go lines 58-79)

The Go method receives the receiver pointer `at` and a closure `unmarshal`.
Embedded as a function of the receiver's prior value and the outcome of the
inner string unmarshal (`Except.error e` when the closure fails, `Except.ok s`
when it yields the string `s`), returning the new receiver value paired with
the returned error (`none` for Go's `nil` error). The loop over `alertTypes`
that sets `found` and writes `*at` on each match is embedded as a `foldl`
over the same list with state `(receiver, found)`. -/

def AlertType.UnmarshalYAML (prior : AlertType) (unmarshalled : Except String String) :
    AlertType × Option String :=
  match unmarshalled with
  | Except.error e => (prior, some e)
  | Except.ok alertType =>
    let r := alertTypes.foldl
      (fun acc s => if s = alertType then (alertType, true) else acc) (prior, false)
    (r.1, if r.2 then none else some "Invalid AlertType")

/-! ## Remaining config structs (config.go lines 90-229) -/

structure SentryStats where
  Name : String
  Version : String
  Height : Int
  SentryAlertType : Int
deriving DecidableEq, Repr

structure DiscordWebhookConfig where
  ID : String
  Token : String
deriving DecidableEq, Repr

structure DiscordChannelConfig where
  Webhook : DiscordWebhookConfig
  AlertUserIDs : List String
  Username : String
deriving DecidableEq, Repr

structure NotificationsConfig where
  Service : String
  Discord : Option DiscordChannelConfig
deriving DecidableEq, Repr

/-- `AlertConfig` (config.go lines 134-136). `IgnoreAlerts []*AlertType` is a
slice of pointers; `AlertActive` dereferences every entry unconditionally, so
the embedding carries the pointed-to values. -/
structure AlertConfig where
  IgnoreAlerts : List AlertType
deriving DecidableEq, Repr

/-- The loop body of `AlertConfig.AlertActive`: scan the ignore list, return
`false` on the first entry equal to `alert`, `true` if the list is exhausted. -/
def alertActiveLoop (alert : AlertType) : List AlertType → Bool
  | [] => true
  | a :: rest => if a = alert then false else alertActiveLoop alert rest

/-- `AlertConfig.AlertActive` (config.go lines 138-145). -/
def AlertConfig.AlertActive (ac : AlertConfig) (alert : AlertType) : Bool :=
  alertActiveLoop alert ac.IgnoreAlerts

structure Sentry where
  Name : String
  GRPC : String
deriving DecidableEq, Repr

/-- `ValidatorMonitor` (config.go lines 206-229). Pointer-typed yaml fields
become `Option`; plain numeric yaml fields keep their Go zero-value semantics
(an absent key loads as `0`). -/
structure ValidatorMonitor where
  Name : String
  RPC : String
  FullNode : Bool
  Address : String
  ChainID : String
  DiscordStatusMessageID : Option String
  RPCRetries : Option Int
  MissedBlocksThreshold : Option Int
  SentryGRPCErrorThreshold : Option Int
  SentryOutOfSyncBlocksThreshold : Option Int
  Sentries : Option (List Sentry)
  SlashingPeriodUptimeWarningThreshold : Rat
  SlashingPeriodUptimeErrorThreshold : Rat
  RecentBlocksToCheck : Int
  NotifyEvery : Int
  RecentMissedBlocksNotifyThreshold : Int
  MissedBlocksGreenTo : Option Int
  MissedBlocksYellowFrom : Option Int
  MissedBlocksYellowTo : Option Int
  MissedBlocksRedFrom : Option Int
deriving DecidableEq, Repr

/-- `HalfLifeConfig` (config.go lines 147-151). `Notifications` is a pointer
field, hence `Option`. -/
structure HalfLifeConfig where
  AlertConfig : AlertConfig
  Notifications : Option NotificationsConfig
  Validators : List ValidatorMonitor
deriving DecidableEq, Repr

/-! ## getUnsetDefaults (config.go lines 153-188) -/

/-- The body of the `for idx := range c.Validators` loop of
`getUnsetDefaults`: each numeric threshold equal to `0` is replaced by its
default, each `nil` band pointer is replaced by a pointer to its default.
The nine `if` statements read and write pairwise distinct fields, so the
sequential mutation is a single record update. -/
def applyValidatorDefaults (v : ValidatorMonitor) : ValidatorMonitor :=
  { v with
    SlashingPeriodUptimeWarningThreshold :=
      if v.SlashingPeriodUptimeWarningThreshold = 0 then
        defaultSlashingPeriodUptimeWarningThreshold
      else v.SlashingPeriodUptimeWarningThreshold
    SlashingPeriodUptimeErrorThreshold :=
      if v.SlashingPeriodUptimeErrorThreshold = 0 then
        defaultSlashingPeriodUptimeErrorThreshold
      else v.SlashingPeriodUptimeErrorThreshold
    RecentBlocksToCheck :=
      if v.RecentBlocksToCheck = 0 then defaultRecentBlocksToCheck
      else v.RecentBlocksToCheck
    NotifyEvery :=
      if v.NotifyEvery = 0 then defaultNotifyEvery else v.NotifyEvery
    RecentMissedBlocksNotifyThreshold :=
      if v.RecentMissedBlocksNotifyThreshold = 0 then
        defaultRecentMissedBlocksNotifyThreshold
      else v.RecentMissedBlocksNotifyThreshold
    MissedBlocksGreenTo :=
      if v.MissedBlocksGreenTo = none then some 49 else v.MissedBlocksGreenTo
    MissedBlocksYellowFrom :=
      if v.MissedBlocksYellowFrom = none then some 50 else v.MissedBlocksYellowFrom
    MissedBlocksYellowTo :=
      if v.MissedBlocksYellowTo = none then some 99 else v.MissedBlocksYellowTo
    MissedBlocksRedFrom :=
      if v.MissedBlocksRedFrom = none then some 100 else v.MissedBlocksRedFrom }

/-- `HalfLifeConfig.getUnsetDefaults` (config.go lines 153-188). The method
begins with `fmt.Printf("%+v", *c.Notifications)`, an unconditional
dereference of the `Notifications` pointer: when that pointer is `nil` the
method panics before doing any defaulting work, embedded as the `none`
result. Otherwise it applies the per-validator defaulting loop and leaves
every other field alone. -/
def HalfLifeConfig.getUnsetDefaults (c : HalfLifeConfig) : Option HalfLifeConfig :=
  match c.Notifications with
  | none => none
  | some _ => some { c with Validators := c.Validators.map applyValidatorDefaults }

/-! ## saveConfig (config.go lines 231-244)

`saveConfig` locks the process-wide mutex, marshals the config to YAML, and
writes the byte slice to the config file. When `yaml.Marshal` returns an
error the code only logs it and falls through, so `os.WriteFile` is still
called with the `nil` byte slice `yamlBytes`, which replaces the file content
with an empty file. Embedded as the file content after the call, as a
function of the marshal outcome and the previous file content (the mutex
makes the call sequential, so a sequential function is a faithful model of
one call). -/

def saveConfig (marshalResult : Except String String) (prevFile : String) : String :=
  match marshalResult with
  | Except.ok yamlBytes => yamlBytes
  | Except.error _ =>
    -- the error is only printed; os.WriteFile(configFile, nil, 0600) runs anyway
    let _ := prevFile
    ""

/-! ## Sentry alert emission

Modelled from the spec: the per-sentry failure-kind alert emission lives in
the monitor loop, which is not under src/ (only the three threshold constants
are, config.go lines 20-22). Per the spec the tracker "Emits a
SentryAlertType for the round when a counter's value exceeds its notify
threshold". -/

/-- Modelled from the spec: whether a sentry failure-kind alert is emitted for
a round, given that kind's consecutive-failure counter value and its notify
threshold — emitted exactly when the counter's value exceeds the threshold.
The emission code itself is not under src/. -/
def sentryAlertEmitted (counter threshold : Int) : Bool :=
  threshold < counter

/-! ## Spec-side characterisation of the defaulting pass -/

/-- Spec-side relation between a validator before and after the defaulting
pass, written from the spec's words for comparison with
`applyValidatorDefaults`: each numeric threshold field is filled with its
documented default (99.80, 98, 20, 20, 10) exactly when unset (zero), each
band-boundary pointer field is filled (49, 50, 99, 100) exactly when `nil`
— a pointer to an explicit value, zero included, is preserved — and every
other field is untouched. -/
def DefaultedFrom (v v' : ValidatorMonitor) : Prop :=
  (v.SlashingPeriodUptimeWarningThreshold = 0 →
    v'.SlashingPeriodUptimeWarningThreshold = 99.80) ∧
  (v.SlashingPeriodUptimeWarningThreshold ≠ 0 →
    v'.SlashingPeriodUptimeWarningThreshold = v.SlashingPeriodUptimeWarningThreshold) ∧
  (v.SlashingPeriodUptimeErrorThreshold = 0 →
    v'.SlashingPeriodUptimeErrorThreshold = 98) ∧
  (v.SlashingPeriodUptimeErrorThreshold ≠ 0 →
    v'.SlashingPeriodUptimeErrorThreshold = v.SlashingPeriodUptimeErrorThreshold) ∧
  (v.RecentBlocksToCheck = 0 → v'.RecentBlocksToCheck = 20) ∧
  (v.RecentBlocksToCheck ≠ 0 → v'.RecentBlocksToCheck = v.RecentBlocksToCheck) ∧
  (v.NotifyEvery = 0 → v'.NotifyEvery = 20) ∧
  (v.NotifyEvery ≠ 0 → v'.NotifyEvery = v.NotifyEvery) ∧
  (v.RecentMissedBlocksNotifyThreshold = 0 → v'.RecentMissedBlocksNotifyThreshold = 10) ∧
  (v.RecentMissedBlocksNotifyThreshold ≠ 0 →
    v'.RecentMissedBlocksNotifyThreshold = v.RecentMissedBlocksNotifyThreshold) ∧
  (v.MissedBlocksGreenTo = none → v'.MissedBlocksGreenTo = some 49) ∧
  (∀ x, v.MissedBlocksGreenTo = some x → v'.MissedBlocksGreenTo = some x) ∧
  (v.MissedBlocksYellowFrom = none → v'.MissedBlocksYellowFrom = some 50) ∧
  (∀ x, v.MissedBlocksYellowFrom = some x → v'.MissedBlocksYellowFrom = some x) ∧
  (v.MissedBlocksYellowTo = none → v'.MissedBlocksYellowTo = some 99) ∧
  (∀ x, v.MissedBlocksYellowTo = some x → v'.MissedBlocksYellowTo = some x) ∧
  (v.MissedBlocksRedFrom = none → v'.MissedBlocksRedFrom = some 100) ∧
  (∀ x, v.MissedBlocksRedFrom = some x → v'.MissedBlocksRedFrom = some x) ∧
  v'.Name = v.Name ∧ v'.RPC = v.RPC ∧ v'.FullNode = v.FullNode ∧
  v'.Address = v.Address ∧ v'.ChainID = v.ChainID ∧
  v'.DiscordStatusMessageID = v.DiscordStatusMessageID ∧
  v'.RPCRetries = v.RPCRetries ∧ v'.MissedBlocksThreshold = v.MissedBlocksThreshold ∧
  v'.SentryGRPCErrorThreshold = v.SentryGRPCErrorThreshold ∧
  v'.SentryOutOfSyncBlocksThreshold = v.SentryOutOfSyncBlocksThreshold ∧
  v'.Sentries = v.Sentries

/-- Spec-side count of the missed-block bands that contain a given count `n`,
for band boundaries `g` (green-to), yf (yellow-from), yt (yellow-to),
rf (red-from) and window size `w`: green is [0, g], yellow is [yf, yt],
red is [rf, w]. -/
def bandCount (g yf yt rf w n : Int) : Nat :=
  (if 0 ≤ n ∧ n ≤ g then 1 else 0) + (if yf ≤ n ∧ n ≤ yt then 1 else 0) +
    (if rf ≤ n ∧ n ≤ w then 1 else 0)

/-! ## Concrete example configurations, used by the witnesses -/

/-- A validator with every defaultable field unset: numeric thresholds zero,
band pointers nil. -/
def vEx : ValidatorMonitor :=
  { Name := "validator-1", RPC := "http://rpc.example", FullNode := false,
    Address := "cosmosvaloper1xyz", ChainID := "chain-1",
    DiscordStatusMessageID := none, RPCRetries := none,
    MissedBlocksThreshold := none, SentryGRPCErrorThreshold := none,
    SentryOutOfSyncBlocksThreshold := none, Sentries := none,
    SlashingPeriodUptimeWarningThreshold := 0,
    SlashingPeriodUptimeErrorThreshold := 0,
    RecentBlocksToCheck := 0, NotifyEvery := 0,
    RecentMissedBlocksNotifyThreshold := 0,
    MissedBlocksGreenTo := none, MissedBlocksYellowFrom := none,
    MissedBlocksYellowTo := none, MissedBlocksRedFrom := none }

/-- `vEx` with every documented default filled in. -/
def vExDefaulted : ValidatorMonitor :=
  { vEx with
    SlashingPeriodUptimeWarningThreshold := 99.80,
    SlashingPeriodUptimeErrorThreshold := 98,
    RecentBlocksToCheck := 20, NotifyEvery := 20,
    RecentMissedBlocksNotifyThreshold := 10,
    MissedBlocksGreenTo := some 49, MissedBlocksYellowFrom := some 50,
    MissedBlocksYellowTo := some 99, MissedBlocksRedFrom := some 100 }

/-- A config with a non-nil `Notifications` pointer and the single validator
`vEx`. -/
def cEx : HalfLifeConfig :=
  { AlertConfig := { IgnoreAlerts := [alertTypeJailed] },
    Notifications := some { Service := "discord", Discord := none },
    Validators := [vEx] }

/-- `cEx` after the defaulting pass. -/
def cExDefaulted : HalfLifeConfig :=
  { AlertConfig := { IgnoreAlerts := [alertTypeJailed] },
    Notifications := some { Service := "discord", Discord := none },
    Validators := [vExDefaulted] }

/-- A config whose `Notifications` pointer is nil. -/
def cNoNotif : HalfLifeConfig :=
  { AlertConfig := { IgnoreAlerts := [] }, Notifications := none,
    Validators := [vEx] }

/-! ## Helper lemmas -/

/-- The membership scan of `UnmarshalYAML` ends in `(s, true)` exactly when
`s` occurs in the scanned list, and otherwise returns the accumulator. -/
theorem unmarshalScan (l : List AlertType) (s : String) (acc : AlertType × Bool) :
    l.foldl (fun acc t => if t = s then (s, true) else acc) acc
      = if s ∈ l then (s, true) else acc := by
  induction l generalizing acc with
  | nil => simp
  | cons a rest ih =>
    simp only [List.foldl_cons, ih, List.mem_cons]
    by_cases h : a = s
    · subst h; simp
    · have h' : ¬s = a := fun hh => h hh.symm
      simp [h, h']

/-- Unfolding of `UnmarshalYAML` on a successfully unmarshalled string. -/
theorem unmarshalYAML_ok (prior : AlertType) (s : String) :
    AlertType.UnmarshalYAML prior (Except.ok s)
      = if s ∈ alertTypes then (s, none) else (prior, some "Invalid AlertType") := by
  simp only [AlertType.UnmarshalYAML, unmarshalScan]
  by_cases h : s ∈ alertTypes <;> simp [h]

/-- The scan loop of `AlertActive` returns `false` exactly on membership. -/
theorem alertActiveLoop_eq (alert : AlertType) (l : List AlertType) :
    alertActiveLoop alert l = !(decide (alert ∈ l)) := by
  induction l with
  | nil => simp [alertActiveLoop]
  | cons a rest ih =>
    simp only [alertActiveLoop, ih, List.mem_cons]
    by_cases h : a = alert
    · subst h; simp
    · have h' : ¬alert = a := fun hh => h hh.symm
      simp [h, h']

/-! ## Claim theorems -/

/-- C2: `AlertType.UnmarshalYAML` accepts exactly the closed set of eight
declared `AlertType` values: when the unmarshalled string is a member of
`alertTypes` it succeeds (nil error) and sets the receiver to that value, and
for every other string it returns the "Invalid AlertType" error. -/
theorem unmarshalYAML_closed_set (prior : AlertType) (s : String) :
    (s ∈ alertTypes → AlertType.UnmarshalYAML prior (Except.ok s) = (s, none)) ∧
    (s ∉ alertTypes →
      AlertType.UnmarshalYAML prior (Except.ok s) = (prior, some "Invalid AlertType")) := by
  rw [unmarshalYAML_ok]
  constructor
  · intro h; simp [h]
  · intro h; simp [h]

/-- Witness for C2 at concrete inputs: the declared value `alertTypeHalt` is
accepted and written to the receiver, the undeclared string "bogus" is
rejected and leaves the receiver alone. -/
theorem unmarshalYAML_closed_set_witness :
    AlertType.UnmarshalYAML alertTypeJailed (Except.ok "alertTypeHalt")
      = ("alertTypeHalt", none) ∧
    AlertType.UnmarshalYAML alertTypeJailed (Except.ok "bogus")
      = (alertTypeJailed, some "Invalid AlertType") :=
  ⟨(unmarshalYAML_closed_set alertTypeJailed "alertTypeHalt").1 (by decide),
   (unmarshalYAML_closed_set alertTypeJailed "bogus").2 (by decide)⟩

/-- C10: `AlertType.UnmarshalYAML` is atomic on error — whenever it returns a
non-nil error (inner unmarshal failure or a string outside the closed set),
the receiver keeps its prior value. -/
theorem unmarshalYAML_error_preserves_receiver (prior : AlertType)
    (r : Except String String) (h : (AlertType.UnmarshalYAML prior r).2 ≠ none) :
    (AlertType.UnmarshalYAML prior r).1 = prior := by
  cases r with
  | error e => rfl
  | ok s =>
    rw [unmarshalYAML_ok] at h ⊢
    by_cases hm : s ∈ alertTypes
    · simp [hm] at h
    · simp [hm]

/-- Witness for C10: rejecting the undeclared string "bogus" returns an error
and leaves the receiver equal to its prior value `alertTypeJailed`. -/
theorem unmarshalYAML_error_preserves_receiver_witness :
    (AlertType.UnmarshalYAML alertTypeJailed (Except.ok "bogus")).1 = alertTypeJailed :=
  unmarshalYAML_error_preserves_receiver alertTypeJailed (Except.ok "bogus") (by decide)

/-- C7: `AlertConfig.AlertActive` returns `false` exactly when the alert type
occurs in the `IgnoreAlerts` list, and `true` exactly when it does not. -/
theorem alertActive_iff_not_ignored (ac : AlertConfig) (alert : AlertType) :
    (ac.AlertActive alert = false ↔ alert ∈ ac.IgnoreAlerts) ∧
    (ac.AlertActive alert = true ↔ alert ∉ ac.IgnoreAlerts) := by
  unfold AlertConfig.AlertActive
  rw [alertActiveLoop_eq]
  constructor
  · simp
  · simp

/-- C9: `getUnsetDefaults` dereferences `c.Notifications` before any
defaulting work, so on every config whose `Notifications` pointer is nil it
panics (the `none` result) instead of applying defaults. -/
theorem getUnsetDefaults_nil_notifications_panics (c : HalfLifeConfig)
    (h : c.Notifications = none) : c.getUnsetDefaults = none := by
  unfold HalfLifeConfig.getUnsetDefaults
  rw [h]

/-- Witness for C9: the concrete config `cNoNotif` has a nil `Notifications`
pointer and `getUnsetDefaults` panics on it. -/
theorem getUnsetDefaults_nil_notifications_panics_witness :
    cNoNotif.getUnsetDefaults = none :=
  getUnsetDefaults_nil_notifications_panics cNoNotif rfl

/-- One defaulting step on a validator satisfies the spec-side relation. -/
theorem defaultedFrom_applyValidatorDefaults (v : ValidatorMonitor) :
    DefaultedFrom v (applyValidatorDefaults v) := by
  unfold DefaultedFrom applyValidatorDefaults
  refine ⟨fun h => ?_, fun h => ?_, fun h => ?_, fun h => ?_, fun h => ?_, fun h => ?_,
    fun h => ?_, fun h => ?_, fun h => ?_, fun h => ?_,
    fun h => ?_, fun x h => ?_, fun h => ?_, fun x h => ?_,
    fun h => ?_, fun x h => ?_, fun h => ?_, fun x h => ?_,
    rfl, rfl, rfl, rfl, rfl, rfl, rfl, rfl, rfl, rfl, rfl⟩ <;>
  simp [h, defaultSlashingPeriodUptimeWarningThreshold,
    defaultSlashingPeriodUptimeErrorThreshold, defaultRecentBlocksToCheck,
    defaultNotifyEvery, defaultRecentMissedBlocksNotifyThreshold]

/-- C1: `getUnsetDefaults` (when it does not panic) assigns defaults only to
truly-absent fields and leaves everything else unchanged: the config-level
`AlertConfig` and `Notifications` fields are untouched, the validator list
keeps its length, and each validator is related to its image by
`DefaultedFrom` — band pointers filled (49/50/99/100) only when nil with a
pointer to an explicit zero preserved, numeric thresholds filled with the
documented defaults (99.80, 98, 20, 20, 10) only when unset, all other
validator fields untouched. -/
theorem getUnsetDefaults_fills_only_unset (c c' : HalfLifeConfig)
    (h : c.getUnsetDefaults = some c') :
    c'.AlertConfig = c.AlertConfig ∧ c'.Notifications = c.Notifications ∧
    c'.Validators.length = c.Validators.length ∧
    ∀ (i : Nat) v v', c.Validators[i]? = some v → c'.Validators[i]? = some v' →
      DefaultedFrom v v' := by
  unfold HalfLifeConfig.getUnsetDefaults at h
  cases hn : c.Notifications with
  | none => rw [hn] at h; cases h
  | some n =>
    rw [hn] at h
    injection h with h'
    subst h'
    refine ⟨rfl, rfl, by simp, ?_⟩
    intro i v v' h1 h2
    simp only [List.getElem?_map, h1, Option.map_some] at h2
    injection h2 with h2'
    subst h2'
    exact defaultedFrom_applyValidatorDefaults v

/-- Witness for C1: applying the theorem to the concrete config `cEx`, whose
single validator `vEx` has every defaultable field unset, shows `vEx` is
related to the fully-defaulted `vExDefaulted` by `DefaultedFrom`. -/
theorem getUnsetDefaults_fills_only_unset_witness :
    DefaultedFrom vEx vExDefaulted :=
  (getUnsetDefaults_fills_only_unset cEx cExDefaulted rfl).2.2.2
    0 vEx vExDefaulted rfl rfl

/-- Filling a zero field with a nonzero default is idempotent. -/
theorem fillZero_idem {α : Type} [DecidableEq α] (z d x : α) (hd : ¬d = z) :
    (if (if x = z then d else x) = z then d else (if x = z then d else x))
      = (if x = z then d else x) := by
  by_cases h : x = z <;> simp [h, hd]

/-- Filling a nil optional field is idempotent. -/
theorem fillNone_idem {α : Type} [DecidableEq α] (d : α) (x : Option α) :
    (if (if x = none then some d else x) = none then some d
      else (if x = none then some d else x)) = (if x = none then some d else x) := by
  cases x <;> simp

/-- The per-validator defaulting step is idempotent: every field it fills
becomes nonzero or non-nil, so a second pass rewrites nothing. -/
theorem applyValidatorDefaults_idem (v : ValidatorMonitor) :
    applyValidatorDefaults (applyValidatorDefaults v) = applyValidatorDefaults v := by
  rcases v with ⟨f1, f2, f3, f4, f5, f6, f7, f8, f9, f10, f11, f12, f13, f14, f15, f16,
    f17, f18, f19, f20⟩
  simp only [applyValidatorDefaults, ValidatorMonitor.mk.injEq, true_and, and_true]
  refine ⟨?_, ?_, ?_, ?_, ?_, ?_, ?_, ?_, ?_⟩
  · exact fillZero_idem 0 defaultSlashingPeriodUptimeWarningThreshold f12
      (by norm_num [defaultSlashingPeriodUptimeWarningThreshold])
  · exact fillZero_idem 0 defaultSlashingPeriodUptimeErrorThreshold f13
      (by norm_num [defaultSlashingPeriodUptimeErrorThreshold])
  · exact fillZero_idem 0 defaultRecentBlocksToCheck f14
      (by norm_num [defaultRecentBlocksToCheck])
  · exact fillZero_idem 0 defaultNotifyEvery f15 (by norm_num [defaultNotifyEvery])
  · exact fillZero_idem 0 defaultRecentMissedBlocksNotifyThreshold f16
      (by norm_num [defaultRecentMissedBlocksNotifyThreshold])
  · exact fillNone_idem _ _
  · exact fillNone_idem _ _
  · exact fillNone_idem _ _
  · exact fillNone_idem _ _

/-- C3: the defaulting pass is idempotent — whenever `getUnsetDefaults`
produces a config, running it again on that config returns it unchanged, so a
load → default → save → reload round trip keeps the effective thresholds. -/
theorem getUnsetDefaults_idem (c c' : HalfLifeConfig)
    (h : c.getUnsetDefaults = some c') : c'.getUnsetDefaults = some c' := by
  unfold HalfLifeConfig.getUnsetDefaults at h ⊢
  cases hn : c.Notifications with
  | none => rw [hn] at h; cases h
  | some n =>
    rw [hn] at h
    injection h with h'
    subst h'
    have hmap : (c.Validators.map applyValidatorDefaults).map applyValidatorDefaults
        = c.Validators.map applyValidatorDefaults := by
      rw [List.map_map]
      exact List.map_congr_left fun a _ => applyValidatorDefaults_idem a
    simp [hn, hmap]

/-- Witness for C3: the defaulting pass maps the concrete config `cEx` to
`cExDefaulted` and leaves `cExDefaulted` fixed. -/
theorem getUnsetDefaults_idem_witness :
    cExDefaulted.getUnsetDefaults = some cExDefaulted :=
  getUnsetDefaults_idem cEx cExDefaulted rfl

/-- C4: for a validator whose band fields and window size are unset, the
defaulting pass yields boundaries green-to 49, yellow-from 50, yellow-to 99,
red-from 100 and window size 20; these are monotonic
(green-to < yellow-from ≤ yellow-to < red-from) and every missed-block count
in [0, window size] lies in exactly one band. -/
theorem defaultBands_monotone_gapfree (v : ValidatorMonitor)
    (h1 : v.MissedBlocksGreenTo = none) (h2 : v.MissedBlocksYellowFrom = none)
    (h3 : v.MissedBlocksYellowTo = none) (h4 : v.MissedBlocksRedFrom = none)
    (h5 : v.RecentBlocksToCheck = 0) :
    ∃ g yf yt rf : Int,
      (applyValidatorDefaults v).MissedBlocksGreenTo = some g ∧
      (applyValidatorDefaults v).MissedBlocksYellowFrom = some yf ∧
      (applyValidatorDefaults v).MissedBlocksYellowTo = some yt ∧
      (applyValidatorDefaults v).MissedBlocksRedFrom = some rf ∧
      (applyValidatorDefaults v).RecentBlocksToCheck = 20 ∧
      g < yf ∧ yf ≤ yt ∧ yt < rf ∧
      ∀ n : Int, 0 ≤ n → n ≤ (applyValidatorDefaults v).RecentBlocksToCheck →
        bandCount g yf yt rf ((applyValidatorDefaults v).RecentBlocksToCheck) n = 1 := by
  have hg : (applyValidatorDefaults v).MissedBlocksGreenTo = some 49 := by
    simp [applyValidatorDefaults, h1]
  have hyf : (applyValidatorDefaults v).MissedBlocksYellowFrom = some 50 := by
    simp [applyValidatorDefaults, h2]
  have hyt : (applyValidatorDefaults v).MissedBlocksYellowTo = some 99 := by
    simp [applyValidatorDefaults, h3]
  have hrf : (applyValidatorDefaults v).MissedBlocksRedFrom = some 100 := by
    simp [applyValidatorDefaults, h4]
  have hw : (applyValidatorDefaults v).RecentBlocksToCheck = 20 := by
    simp [applyValidatorDefaults, h5, defaultRecentBlocksToCheck]
  refine ⟨49, 50, 99, 100, hg, hyf, hyt, hrf, hw, by norm_num, by norm_num, by norm_num, ?_⟩
  intro n hn0 hnw
  rw [hw] at hnw ⊢
  unfold bandCount
  rw [if_pos ⟨hn0, by omega⟩, if_neg (by omega), if_neg (by omega)]

/-- Witness for C4: the concrete validator `vEx` has all band fields and the
window size unset, and the defaulted band set puts the in-window count 7 in
exactly one band. -/
theorem defaultBands_monotone_gapfree_witness : bandCount 49 50 99 100 20 7 = 1 := by
  obtain ⟨g, yf, yt, rf, hg, hyf, hyt, hrf, hw, _, _, _, hband⟩ :=
    defaultBands_monotone_gapfree vEx rfl rfl rfl rfl rfl
  have h7 := hband 7 (by norm_num) (by rw [hw]; norm_num)
  rw [hw] at h7
  have hg49 : g = 49 := by
    have : (applyValidatorDefaults vEx).MissedBlocksGreenTo = some 49 := rfl
    rw [this] at hg; injection hg with h; exact h.symm
  have hyf50 : yf = 50 := by
    have : (applyValidatorDefaults vEx).MissedBlocksYellowFrom = some 50 := rfl
    rw [this] at hyf; injection hyf with h; exact h.symm
  have hyt99 : yt = 99 := by
    have : (applyValidatorDefaults vEx).MissedBlocksYellowTo = some 99 := rfl
    rw [this] at hyt; injection hyt with h; exact h.symm
  have hrf100 : rf = 100 := by
    have : (applyValidatorDefaults vEx).MissedBlocksRedFrom = some 100 := rfl
    rw [this] at hrf; injection hrf with h; exact h.symm
  rw [hg49, hyf50, hyt99, hrf100] at h7
  exact h7

/-- C5: `AlertLevel` is an ordered enumeration with
none < warning < high < critical represented as 0 < 1 < 2 < 3; every
non-empty collection of levels has a well-defined maximum (attained by a
member and bounding every member), and `critical` is the top element: the
maximum of any collection of declared levels that includes `critical` is
`critical`. -/
theorem alertLevel_order_and_max :
    alertLevelNone < alertLevelWarning ∧ alertLevelWarning < alertLevelHigh ∧
    alertLevelHigh < alertLevelCritical ∧
    alertLevelNone = 0 ∧ alertLevelWarning = 1 ∧ alertLevelHigh = 2 ∧
    alertLevelCritical = 3 ∧
    (∀ l : List AlertLevel, l ≠ [] →
      ∃ m : AlertLevel, l.maximum = (m : WithBot AlertLevel) ∧ m ∈ l ∧ ∀ x ∈ l, x ≤ m) ∧
    (∀ l : List AlertLevel, (∀ x ∈ l, DeclaredAlertLevel x) → alertLevelCritical ∈ l →
      l.maximum = (alertLevelCritical : WithBot AlertLevel)) := by
  refine ⟨by norm_num [alertLevelNone, alertLevelWarning],
    by norm_num [alertLevelWarning, alertLevelHigh],
    by norm_num [alertLevelHigh, alertLevelCritical],
    rfl, rfl, rfl, rfl, ?_, ?_⟩
  · intro l hl
    obtain ⟨m, hm⟩ := Option.ne_none_iff_exists.mp (List.maximum_ne_bot_of_ne_nil hl)
    obtain ⟨hmem, hbound⟩ := List.maximum_eq_coe_iff.mp hm.symm
    exact ⟨m, hm.symm, hmem, hbound⟩
  · intro l hdecl hc
    refine List.maximum_eq_coe_iff.mpr ⟨hc, fun a ha => ?_⟩
    rcases hdecl a ha with h | h | h | h <;>
      simp [h, alertLevelNone, alertLevelWarning, alertLevelHigh, alertLevelCritical]

/-- C6 (code bug): when `yaml.Marshal` fails, `saveConfig` only logs the
error and still calls `os.WriteFile` with the nil byte slice, so the
previously persisted file content is replaced by an empty file instead of
being left unchanged. -/
theorem saveConfig_marshal_error_truncates :
    saveConfig (Except.error "yaml marshal failure") "prior persisted config" = "" ∧
    "prior persisted config" ≠ "" := by
  exact ⟨rfl, by decide⟩

/-- C8 (counterexample): on the first consecutive occurrence of a sentry
gRPC failure the counter is 1, which does not exceed
`sentryGRPCErrorNotifyThreshold` (= 1), so no alert is emitted — the claim
that the alert fires on the first occurrence is false. -/
theorem sentryAlert_not_on_first_occurrence :
    sentryAlertEmitted 1 sentryGRPCErrorNotifyThreshold = false := by decide

/-- C8 (amended): each sentry failure-kind notify threshold constant equals
1, and an alert is emitted for a round exactly when that kind's
consecutive-failure counter exceeds its threshold, i.e. from the second
consecutive occurrence (counter at least 2) onward, not the first. -/
theorem sentryAlert_fires_from_second_occurrence :
    sentryGRPCErrorNotifyThreshold = 1 ∧ sentryOutOfSyncErrorNotifyThreshold = 1 ∧
    sentryHaltErrorNotifyThreshold = 1 ∧
    (∀ counter : Int,
      sentryAlertEmitted counter sentryGRPCErrorNotifyThreshold = true ↔ 2 ≤ counter) ∧
    (∀ counter : Int,
      sentryAlertEmitted counter sentryOutOfSyncErrorNotifyThreshold = true ↔ 2 ≤ counter) ∧
    (∀ counter : Int,
      sentryAlertEmitted counter sentryHaltErrorNotifyThreshold = true ↔ 2 ≤ counter) := by
  refine ⟨rfl, rfl, rfl, ?_, ?_, ?_⟩ <;>
    · intro counter
      simp only [sentryAlertEmitted, sentryGRPCErrorNotifyThreshold,
        sentryOutOfSyncErrorNotifyThreshold, sentryHaltErrorNotifyThreshold,
        decide_eq_true_eq]
      omega

end HalfLife
